import Mathlib

/-!
Verification development for the electrolux2mqtt bridge.

The definitions below are a shallow embedding of the TypeScript sources:

* `src/services/electrolux.ts` — the Electrolux API client (credential
  lifecycle in `authenticate` / `refreshAccessToken`, the appliance fetch
  fan-out in `fetchData`, and record normalisation in `processApplianceData`);
* `src/services/homeAssistant.ts` — the Home Assistant discovery service
  (`registerDevice`, `createSensors`, `createSensor`, `publishState`,
  `sanitizeId`, `formatPropertyName`).

Time is modelled as integer epoch milliseconds; HTTP calls and file writes are
modelled as explicit outcome parameters and recorded effects, so every
definition is executable.  Async control flow is modelled by cutting each
method at its `await` points into atomic blocks and exposing a step function
over explicitly scheduled events.
-/

set_option autoImplicit false

namespace Electrolux2Mqtt

/-- In-memory token state of `ElectroluxApiClient`: the fields `accessToken`,
`refreshToken` (both `string | null`) and `tokenExpiry` (epoch ms). -/
structure TokenState where
  accessToken : Option String
  refreshToken : Option String
  tokenExpiry : Int
deriving Repr, DecidableEq

/-- Body of a successful token-refresh response (`ElectroluxAuthResponse`);
only the fields the client reads. -/
structure AuthResp where
  accessToken : String
  refreshToken : String
  expiresIn : Int
deriving Repr, DecidableEq

instance : DecidableEq (Except String Unit) := fun a b =>
  match a, b with
  | .ok (), .ok () => isTrue rfl
  | .ok (), .error _ => isFalse (fun h => Except.noConfusion h)
  | .error _, .ok () => isFalse (fun h => Except.noConfusion h)
  | .error x, .error y =>
    match decEq x y with
    | isTrue h => isTrue (h ▸ rfl)
    | isFalse h => isFalse (fun hh => h (by cases hh; rfl))

/-- Result of one `refreshAccessToken` call: whether it returned or threw
(with the thrown message), the token state it left behind, and the list of
state snapshots persisted by `saveDataToFile` during the call. -/
structure RefreshResult where
  result : Except String Unit
  state : TokenState
  saved : List TokenState
deriving Repr, DecidableEq

/-- `ElectroluxApiClient.refreshAccessToken` (src/services/electrolux.ts
lines 177-220).  The HTTP exchange is the `outcome` parameter: `.ok auth` for
a 2xx response with body `auth`, `.error e` for a thrown failure (non-ok
status or network error).  On success the three token fields are replaced and
the new state is persisted; on exchange failure the session is cleared and the
error rethrown; when no refresh token is present the method throws
immediately, before the try/catch that clears the session. -/
def refreshAccessToken (now : Int) (outcome : Except String AuthResp)
    (st : TokenState) : RefreshResult :=
  match st.refreshToken with
  | none => { result := .error "No refresh token available", state := st, saved := [] }
  | some _ =>
    match outcome with
    | .ok auth =>
      let st' : TokenState :=
        { accessToken := some auth.accessToken
          refreshToken := some auth.refreshToken
          tokenExpiry := now + auth.expiresIn * 1000 }
      { result := .ok (), state := st', saved := [st'] }
    | .error e =>
      { result := .error e
        state := { accessToken := none, refreshToken := none, tokenExpiry := 0 }
        saved := [] }

/-- `ElectroluxApiClient.authenticate` (lines 150-172).  Returns whether a
renewal was attempted together with the outcome.  The guard is the source
condition `this.accessToken && Date.now() < this.tokenExpiry - 120000`. -/
def authenticate (now : Int) (outcome : Except String AuthResp)
    (st : TokenState) : Bool × RefreshResult :=
  if st.accessToken.isSome ∧ now < st.tokenExpiry - 120000 then
    (false, { result := .ok (), state := st, saved := [] })
  else
    (true, refreshAccessToken now outcome st)

/-! ### Interleaving model of concurrent `authenticate` calls

`authenticate` runs synchronously from entry up to the `await fetch(...)`
inside `refreshAccessToken` (an async call executes synchronously until its
first await), then suspends until the response arrives.  So each caller has
two atomic blocks: the check-and-issue block and the response-delivery block.
-/

/-- Program counter of one concurrent `authenticate` caller. -/
inductive CallerPC where
  | start
  | awaiting
  | doneOk
  | doneErr
deriving Repr, DecidableEq

/-- Shared client state plus the program counters of the concurrent callers.
`renewals` counts the refresh HTTP requests issued so far. -/
structure CMSystem where
  tok : TokenState
  renewals : Nat
  callers : List CallerPC
deriving Repr, DecidableEq

/-- Atomic block 1 of caller `i`: the token-validity check of `authenticate`
and, when renewal is needed, the synchronous prefix of `refreshAccessToken`
(the missing-token guard and the issuing of the refresh HTTP request). -/
def runToAwait (now : Int) (s : CMSystem) (i : Nat) : CMSystem :=
  match s.callers.get? i with
  | some .start =>
    if s.tok.accessToken.isSome ∧ now < s.tok.tokenExpiry - 120000 then
      { s with callers := s.callers.set i .doneOk }
    else
      match s.tok.refreshToken with
      | none => { s with callers := s.callers.set i .doneErr }
      | some _ =>
        { s with renewals := s.renewals + 1, callers := s.callers.set i .awaiting }
  | _ => s

/-- Atomic block 2 of caller `i`: the refresh HTTP response is delivered and
the rest of `refreshAccessToken` runs (token replacement on success, session
clearing on failure). -/
def deliverResponse (now : Int) (resp : Except String AuthResp)
    (s : CMSystem) (i : Nat) : CMSystem :=
  match s.callers.get? i with
  | some .awaiting =>
    match resp with
    | .ok a =>
      { s with
        tok := { accessToken := some a.accessToken
                 refreshToken := some a.refreshToken
                 tokenExpiry := now + a.expiresIn * 1000 }
        callers := s.callers.set i .doneOk }
    | .error _ =>
      { s with
        tok := { accessToken := none, refreshToken := none, tokenExpiry := 0 }
        callers := s.callers.set i .doneErr }
  | _ => s

/-- One scheduled event of the interleaving. -/
inductive CMEvent where
  | run (i : Nat) (now : Int)
  | deliver (i : Nat) (now : Int) (resp : Except String AuthResp)
deriving Repr

/-- Execute a schedule of events against a system state. -/
def execEvents : List CMEvent → CMSystem → CMSystem
  | [], s => s
  | .run i now :: rest, s => execEvents rest (runToAwait now s i)
  | .deliver i now resp :: rest, s => execEvents rest (deliverResponse now resp s i)

/-- Two concurrent callers on an expired session: both run their
check-and-issue block before either refresh response arrives. -/
def twoCallerSchedule : List CMEvent :=
  [ .run 0 0, .run 1 0,
    .deliver 0 0 (.ok { accessToken := "a1", refreshToken := "r1", expiresIn := 3600 }),
    .deliver 1 0 (.ok { accessToken := "a2", refreshToken := "r2", expiresIn := 3600 }) ]

/-- Initial state: no access token (expired/absent session), a stored refresh
token, two callers about to enter `authenticate`. -/
def expiredInit : CMSystem :=
  { tok := { accessToken := none, refreshToken := some "r0", tokenExpiry := 0 }
    renewals := 0
    callers := [.start, .start] }

/-! ### Appliance data model and the `fetchData` fan-out -/

/-- JSON-like value, modelling the `any`-typed dynamic payloads of the
sources (appliance state maps, discovery-document field values). -/
inductive JVal where
  | bool (b : Bool)
  | num (n : Int)
  | str (s : String)
  | null
  | arr (elems : List JVal)
  | obj (fields : List (String × JVal))
deriving Repr

/-- JavaScript truthiness of a `JVal` (`false`, `0`, `""` and `null` are
falsy; objects and arrays are truthy). -/
def JVal.truthy : JVal → Bool
  | .bool b => b
  | .num n => n != 0
  | .str s => s != ""
  | .null => false
  | .arr _ => true
  | .obj _ => true

/-- JavaScript `typeof value === 'object'` (true for objects, arrays and
`null`). -/
def JVal.isObjType : JVal → Bool
  | .null => true
  | .arr _ => true
  | .obj _ => true
  | .bool _ => false
  | .num _ => false
  | .str _ => false

/-- JavaScript `typeof value === 'boolean'`. -/
def JVal.isBool : JVal → Bool
  | .bool _ => true
  | .null => false
  | .arr _ => false
  | .obj _ => false
  | .num _ => false
  | .str _ => false

/-- `ElectroluxAppliance` inventory identity, the fields `fetchData` reads. -/
structure Appliance where
  applianceId : String
  applianceName : String
deriving Repr, DecidableEq

/-- The `info.applianceInfo` fields read by `processApplianceData`; `Option`
models fields the remote may omit (JS `undefined` is falsy under `||`). -/
structure ApplianceInfoSrc where
  model : Option String
  variant : Option String
  serialNumber : Option String
  deviceType : Option String
deriving Repr, DecidableEq

/-- The part of `ElectroluxApplianceState` that `processApplianceData`
reads: `state.properties.reported`; `none` models an absent `reported`
(the source defaults it with `|| {}`). -/
structure ApplianceStateSrc where
  reported : Option (List (String × JVal))
deriving Repr

/-- JS `a || b` for a possibly-undefined string (empty string is falsy). -/
def jsOrStr (a : Option String) (b : String) : String :=
  match a with
  | some s => if s = "" then b else s
  | none => b

/-- The normalised `info` block of an `ElectroluxApiResponse`.  `connected`
is `Option Bool` because records built elsewhere (mock data, degraded
records) may lack it, which `publishState` checks with `!== undefined`. -/
structure InfoOut where
  modelName : String
  variant : String
  serialNumber : String
  deviceType : String
  connected : Option Bool
deriving Repr, DecidableEq

/-- One element of a `fetchData` result array.  `ApiResponse` is an open
record in the source; the three object shapes actually constructed by
`fetchData` are modelled as a sum. -/
inductive ApiResp where
  | success (timestamp applianceId name : String) (info : InfoOut)
      (state : List (String × JVal))
  | deviceError (timestamp applianceId name error : String) (connected : Bool)
  | message (timestamp msg : String)
deriving Repr

/-- `ElectroluxApiClient.processApplianceData` (lines 334-361): merges the
inventory identity, the info fetch and the reported state into the canonical
per-appliance record; `connected` is the strict comparison
`stateReported.connectionState === 'CONNECTED'`. -/
def processApplianceData (now : String) (a : Appliance)
    (info : ApplianceInfoSrc) (state : ApplianceStateSrc) : ApiResp :=
  let stateReported := state.reported.getD []
  .success now a.applianceId a.applianceName
    { modelName := jsOrStr info.model "Unknown Model"
      variant := jsOrStr info.variant "Unknown Variant"
      serialNumber := jsOrStr info.serialNumber "Unknown Serial"
      deviceType := jsOrStr info.deviceType "Unknown Device"
      connected := some (match stateReported.lookup "connectionState" with
        | some (JVal.str s) => s == "CONNECTED"
        | _ => false) }
    stateReported

/-- The per-appliance body of the `Promise.all` fan-out in `fetchData`
(lines 383-408): info fetch, then state fetch, then normalisation; the
per-device catch turns a thrown message `e` into a degraded record with
`connected: false`. -/
def fetchOne (now : String) (infoFetch : String → Except String ApplianceInfoSrc)
    (stateFetch : String → Except String ApplianceStateSrc) (a : Appliance) : ApiResp :=
  match infoFetch a.applianceId with
  | .error e => .deviceError now a.applianceId a.applianceName
      ("Failed to fetch appliance data: " ++ e) false
  | .ok info =>
    match stateFetch a.applianceId with
    | .error e => .deviceError now a.applianceId a.applianceName
        ("Failed to fetch appliance data: " ++ e) false
    | .ok st => processApplianceData now a info st

/-- `ElectroluxApiClient.fetchData` (lines 367-416).  `inventory` is the
outcome of `getAppliances()` (a failure there escapes `fetchData` via the
outer rethrow); `infoFetch` and `stateFetch` give the outcomes of the
per-appliance `getApplianceInfo` / `getApplianceState` calls, `.error`
carrying the thrown message. -/
def fetchData (now : String) (inventory : Except String (List Appliance))
    (infoFetch : String → Except String ApplianceInfoSrc)
    (stateFetch : String → Except String ApplianceStateSrc) :
    Except String (List ApiResp) :=
  match inventory with
  | .error e => .error e
  | .ok appliances =>
    if appliances.length = 0 then
      .ok [.message now "No appliances found"]
    else
      .ok (appliances.map (fetchOne now infoFetch stateFetch))

/-- Three concrete appliances for the spec §8 isolation scenario. -/
def demoAppliances : List Appliance :=
  [ { applianceId := "app1", applianceName := "Washer" }
  , { applianceId := "app2", applianceName := "Dryer" }
  , { applianceId := "app3", applianceName := "Fridge" } ]

/-- Info oracle that throws for the second appliance only. -/
def demoInfoFetch (id : String) : Except String ApplianceInfoSrc :=
  if id = "app2" then .error "boom"
  else .ok { model := some "M1", variant := none, serialNumber := some "SN"
             deviceType := some "WASHER" }

/-- State oracle that always succeeds with a connected state. -/
def demoStateFetch (_ : String) : Except String ApplianceStateSrc :=
  .ok { reported := some [("connectionState", JVal.str "CONNECTED")] }

/-! ### Id sanitisation (`HomeAssistantService.sanitizeId`) -/

/-- The ASCII members of the JS regex whitespace class `\s`. -/
def isJsSpace (c : Char) : Bool :=
  c == ' ' || c == '\t' || c == '\n' || c == '\r' || c == '\x0b' || c == '\x0c'

/-- Core of a JS global replace of `[class]+` by a single character `r`:
each maximal run of characters matching `p` becomes one `r`.  The flag
records whether the previous input character belonged to a run. -/
def collapseAux (p : Char → Bool) (r : Char) : Bool → List Char → List Char
  | _, [] => []
  | inRun, c :: cs =>
    match p c, inRun with
    | true, true => collapseAux p r true cs
    | true, false => r :: collapseAux p r true cs
    | false, _ => c :: collapseAux p r false cs

/-- `.replace(/[class]+/g, 'r')` for a single replacement character. -/
def collapseRuns (p : Char → Bool) (r : Char) (l : List Char) : List Char :=
  collapseAux p r false l

/-- `.replace(/x/g, word)`: every occurrence of the character `x` becomes
the word `w`. -/
def expandChar (x : Char) (w : List Char) : List Char → List Char
  | [] => []
  | c :: cs => (if c == x then w else [c]) ++ expandChar x w cs

/-- Allowed character set of the strict (topic-safe) form: `[a-zA-Z0-9_\-]`. -/
def isAllowedStrict (c : Char) : Bool :=
  c.isAlphanum || c == '_' || c == '-'

/-- Allowed character set of the loose (unique-id) form: `[a-zA-Z0-9_\-.]`. -/
def isAllowedLoose (c : Char) : Bool :=
  c.isAlphanum || c == '_' || c == '-' || c == '.'

/-- `.replace(/^[0-9-]/, 'a$&')`: when the first character is a digit or a
dash, prefix the filler character `a`, keeping the matched character. -/
def prefixGuard (l : List Char) : List Char :=
  match l with
  | [] => []
  | c :: cs => if c.isDigit || c == '-' then 'a' :: c :: cs else c :: cs

/-- `HomeAssistantService.sanitizeId` (src/services/homeAssistant.ts lines
597-620): the source's chain of regex replaces, innermost applied first;
`forUniqueId` selects the looser branch.  `if (!id) return 'unknown'` is the
empty-string guard. -/
def sanitizeId (id : String) (forUniqueId : Bool) : String :=
  if id = "" then "unknown"
  else if forUniqueId then
    String.mk (collapseRuns (fun c => c == '_') '_'
      (prefixGuard
        (List.filter isAllowedLoose
          (collapseRuns (fun c => c == '/' || c == ':' || c == '?' || c == '&' || c == '=') '-'
            (collapseRuns (fun c => isJsSpace c || c == ',' || c == ';' || c == '\\') '_'
              id.data)))))
  else
    String.mk (collapseRuns (fun c => c == '_') '_'
      (prefixGuard
        (List.filter isAllowedStrict
          (List.filter (fun c => !(c == '&' || c == '?' || c == '='))
            (expandChar '#' ['h', 'a', 's', 'h']
              (expandChar '+' ['p', 'l', 'u', 's']
                (collapseRuns
                  (fun c => isJsSpace c || c == ',' || c == ':' || c == ';' || c == '/' || c == '\\')
                  '_' id.data)))))))

/-- `true` when the string violates the "never begins with a digit or dash"
requirement of the sanitised forms. -/
def startsBad (s : String) : Bool :=
  match s.data with
  | [] => false
  | c :: _ => c.isDigit || c == '-'

/-- `true` when no two adjacent characters of the list both satisfy `p`. -/
def noTwoAdjacent (p : Char → Bool) : List Char → Bool
  | a :: b :: t => (!(p a && p b)) && noTwoAdjacent p (b :: t)
  | _ => true

/-- Separator characters of the sanitised id forms (underscore and dash). -/
def isSeparator (c : Char) : Bool :=
  c == '_' || c == '-'

/-! ### Home Assistant discovery service (`homeAssistant.ts`) -/

/-- `HomeAssistantConfig` (homeAssistant.ts lines 13-18) after the
constructor's defaulting; `discoveryPfx` models the source field holding the
discovery topic root (default `homeassistant`). -/
structure HAConfig where
  discoveryPfx : String
  nodeId : String
  statusTopic : String
  enabled : Bool
deriving Repr, DecidableEq

/-- The `device` binding object built by `registerDevice` (lines 134-144). -/
structure DeviceInfo where
  identifiers : List String
  name : String
  manufacturer : String
  model : String
  sw_version : JVal
  via_device : String
deriving Repr

/-- One retained MQTT discovery document as published by `createSensor`:
its topic plus the JSON config fields in the source's insertion order;
`none` means the optional key is absent from the object. -/
structure DiscoveryDoc where
  topic : String
  name : String
  unique_id : String
  state_topic : String
  value_template : String
  availability_topic : String
  payload_available : String
  payload_not_available : String
  device : DeviceInfo
  device_class : Option String
  unit_of_measurement : Option String
  icon : Option String
  entity_category : Option String
  payload_on : Option String
  payload_off : Option String
deriving Repr

/-- The argument record of `createSensor` (lines 408-423). -/
structure SensorCfg where
  applianceId : String
  deviceInfo : DeviceInfo
  name : String
  uniqueId : Option String := none
  component : String
  stateTopic : String
  valueTemplate : String
  deviceClass : Option String := none
  unitOfMeasurement : Option String := none
  icon : Option String := none
  entityCategory : Option String := none
  payloadOn : Option String := none
  payloadOff : Option String := none
  originalId : Option String := none
deriving Repr

/-- The `HomeAssistantService` state read by the modelled methods: the
config and the `deviceRegistrations` ledger (sanitised ids registered so
far this process lifetime). -/
structure HAService where
  config : HAConfig
  deviceRegistrations : List String
deriving Repr

/-- JS truthiness of an optional string: `undefined` and `''` are falsy. -/
def truthyStr : Option String → Option String
  | some s => if s = "" then none else some s
  | none => none

/-- `config.name.toLowerCase().replace(/\s+/g, '_')` used when generating a
unique id. -/
def lowerUnderscoreName (name : String) : String :=
  String.mk (collapseRuns isJsSpace '_' (name.data.map Char.toLower))

/-- `uniqueId.replace(/[^a-zA-Z0-9_\-]/g, '_')`: per-character replacement
(no run collapsing) used in the discovery topic. -/
def topicSafeUnique (l : List Char) : List Char :=
  l.map (fun c => if isAllowedStrict c then c else '_')

/-- `HomeAssistantService.createSensor` (lines 408-458): computes the unique
id (from the explicit `uniqueId`, else from the loosely sanitised original
id, else from the appliance id), the discovery topic, and the discovery
config object whose optional keys are added only when truthy. -/
def createSensor (cfg : HAConfig) (c : SensorCfg) : DiscoveryDoc :=
  let uniqueId :=
    match truthyStr c.uniqueId with
    | some u => u
    | none =>
      match truthyStr c.originalId with
      | some oid => sanitizeId oid true ++ "_" ++ lowerUnderscoreName c.name
      | none => c.applianceId ++ "_" ++ lowerUnderscoreName c.name
  { topic := cfg.discoveryPfx ++ "/" ++ c.component ++ "/" ++ c.applianceId ++ "/"
      ++ String.mk (topicSafeUnique uniqueId.data) ++ "/config"
    name := c.name
    unique_id := uniqueId
    state_topic := c.stateTopic
    value_template := c.valueTemplate
    availability_topic := cfg.statusTopic
    payload_available := "online"
    payload_not_available := "offline"
    device := c.deviceInfo
    device_class := truthyStr c.deviceClass
    unit_of_measurement := truthyStr c.unitOfMeasurement
    icon := truthyStr c.icon
    entity_category := truthyStr c.entityCategory
    payload_on := truthyStr c.payloadOn
    payload_off := truthyStr c.payloadOff }

/-- The `ElectroluxApiResponse` fields consumed by the Home Assistant
service methods below. -/
structure HARecord where
  applianceId : String
  name : String
  info : InfoOut
  state : List (String × JVal)
deriving Repr

/-- `state.key !== undefined` on the JS object modelled as an ordered
association list. -/
def hasKey (st : List (String × JVal)) (k : String) : Bool :=
  (st.lookup k).isSome

/-- `state.k1?.k2 !== undefined` (optional chaining: any non-object value
under `k1` yields `undefined`). -/
def hasNestedKey (st : List (String × JVal)) (k1 k2 : String) : Bool :=
  match st.lookup k1 with
  | some (JVal.obj fields) => (fields.lookup k2).isSome
  | _ => false

/-- JS `a || d` over a possibly-undefined dynamic value. -/
def jvalOr (v : Option JVal) (d : JVal) : JVal :=
  match v with
  | some x => if x.truthy then x else d
  | none => d

/-- `HomeAssistantService.formatPropertyName` step 1: insert a space before
every uppercase letter (`.replace(/([A-Z])/g, ' $1')`). -/
def insertSpaces : List Char → List Char
  | [] => []
  | c :: cs => (if c.isUpper then [' ', c] else [c]) ++ insertSpaces cs

/-- Step 2: `.replace(/^./, str => str.toUpperCase())` — uppercase the first
character (`.` does not match a newline). -/
def upperFirst : List Char → List Char
  | [] => []
  | c :: cs => if c = '\n' then c :: cs else c.toUpper :: cs

/-- Step 3: `.trim()`. -/
def trimChars (l : List Char) : List Char :=
  ((l.dropWhile isJsSpace).reverse.dropWhile isJsSpace).reverse

/-- `HomeAssistantService.formatPropertyName` (lines 463-469). -/
def formatPropertyName (propertyName : String) : String :=
  String.mk (trimChars (upperFirst (insertSpaces propertyName.data)))

/-- The hardcoded key exclusion list of the generic-sensor loop
(homeAssistant.ts lines 368-388), applied regardless of device category. -/
def genericSkipKeys : List String :=
  ["connected", "temperature", "humidity", "program", "status",
   "remainingTime", "fridgeTemperature", "freezerTemperature", "doorState",
   "timeToEnd", "cyclePhase", "applianceState", "userSelections",
   "device_status"]

/-- The generic-sensor loop of `createSensors` (lines 367-402): for each
state entry in order, skip the hardcoded keys and object-typed values,
otherwise emit a generic sensor — a binary sensor with true/false payloads
for booleans, a plain sensor otherwise. -/
def genericDocs (cfg : HAConfig) (applianceId originalId : String)
    (deviceInfo : DeviceInfo) (stateTopic : String) :
    List (String × JVal) → List DiscoveryDoc
  | [] => []
  | (key, value) :: rest =>
    (if genericSkipKeys.contains key || value.isObjType then []
     else
      [ createSensor cfg
          { applianceId := applianceId
            originalId := some originalId
            deviceInfo := deviceInfo
            name := formatPropertyName key
            stateTopic := stateTopic
            valueTemplate := "\x7b\x7b value_json." ++ key ++ " \x7d\x7d"
            component := if value.isBool then "binary_sensor" else "sensor"
            payloadOn := if value.isBool then some "true" else none
            payloadOff := if value.isBool then some "false" else none } ])
      ++ genericDocs cfg applianceId originalId deviceInfo stateTopic rest

/-- `HomeAssistantService.createSensors` (lines 162-403): the full
discovery-document derivation for one appliance, in source order — the two
always-present sensors, the key-conditional temperature/humidity sensors,
the device-category blocks, and the generic loop.  `svc` is `this`; only
`svc.config` is read (`deviceRegistrations` is never consulted here). -/
def createSensors (svc : HAService) (applianceId originalId : String)
    (deviceInfo : DeviceInfo) (appliance : HARecord) : List DiscoveryDoc :=
  let state := appliance.state
  let stateTopic := "electrolux2mqtt/" ++ applianceId ++ "/state"
  let dt := appliance.info.deviceType
  [ createSensor svc.config
      { applianceId := applianceId, originalId := some originalId
        deviceInfo := deviceInfo, name := "Connection"
        deviceClass := some "connectivity", stateTopic := stateTopic
        valueTemplate := "\x7b\x7b value_json.connected \x7d\x7d"
        payloadOn := some "true", payloadOff := some "false"
        entityCategory := some "diagnostic", icon := some "mdi:wifi"
        component := "binary_sensor" } ]
  ++ [ createSensor svc.config
      { applianceId := applianceId, originalId := some originalId
        deviceInfo := deviceInfo, name := "Device Status"
        stateTopic := stateTopic
        valueTemplate :=
          if dt == "TUMBLE_DRYER" then
            "\x7b\x7b value_json.applianceState + (value_json.doorState ? \" (Door \" + value_json.doorState + \")\" : \"\") \x7d\x7d"
          else
            "\x7b\x7b value_json.status || value_json.applianceState || \"Unknown\" \x7d\x7d"
        icon := some "mdi:information", component := "sensor" } ]
  ++ (if hasKey state "temperature" then
      [ createSensor svc.config
          { applianceId := applianceId, originalId := some originalId
            deviceInfo := deviceInfo, name := "Temperature"
            deviceClass := some "temperature", stateTopic := stateTopic
            valueTemplate := "\x7b\x7b value_json.temperature \x7d\x7d"
            unitOfMeasurement := some "°C", component := "sensor" } ]
      else [])
  ++ (if hasKey state "humidity" then
      [ createSensor svc.config
          { applianceId := applianceId, originalId := some originalId
            deviceInfo := deviceInfo, name := "Humidity"
            deviceClass := some "humidity", stateTopic := stateTopic
            valueTemplate := "\x7b\x7b value_json.humidity \x7d\x7d"
            unitOfMeasurement := some "%", component := "sensor" } ]
      else [])
  ++ (if dt == "WASHER" || dt == "DRYER" || dt == "DISHWASHER" || dt == "TUMBLE_DRYER" then
      [ createSensor svc.config
          { applianceId := applianceId, originalId := some originalId
            deviceInfo := deviceInfo, name := "Program"
            stateTopic := stateTopic
            valueTemplate :=
              if dt == "TUMBLE_DRYER" then
                "\x7b\x7b value_json.userSelections.programUID \x7d\x7d"
              else
                "\x7b\x7b value_json.program \x7d\x7d"
            icon := some "mdi:washing-machine", component := "sensor" } ]
      ++ [ createSensor svc.config
          { applianceId := applianceId, originalId := some originalId
            deviceInfo := deviceInfo, name := "Status"
            stateTopic := stateTopic
            valueTemplate :=
              if dt == "TUMBLE_DRYER" then
                "\x7b\x7b value_json.applianceState \x7d\x7d"
              else
                "\x7b\x7b value_json.status \x7d\x7d"
            icon := some "mdi:information-outline", component := "sensor" } ]
      ++ (if hasKey state "remainingTime" || (hasKey state "timeToEnd" && dt == "TUMBLE_DRYER") then
          [ createSensor svc.config
              { applianceId := applianceId, originalId := some originalId
                deviceInfo := deviceInfo, name := "Remaining Time"
                stateTopic := stateTopic
                valueTemplate :=
                  if dt == "TUMBLE_DRYER" then
                    "\x7b\x7b value_json.timeToEnd | int / 60 \x7d\x7d"
                  else
                    "\x7b\x7b value_json.remainingTime \x7d\x7d"
                unitOfMeasurement := some "min", icon := some "mdi:timer-outline"
                component := "sensor" } ]
          else [])
      else [])
  ++ (if dt == "TUMBLE_DRYER" then
      (if hasKey state "doorState" then
        [ createSensor svc.config
            { applianceId := applianceId, originalId := some originalId
              deviceInfo := deviceInfo, name := "Door State"
              stateTopic := stateTopic
              valueTemplate := "\x7b\x7b value_json.doorState \x7d\x7d"
              icon := some "mdi:door", component := "sensor" } ]
        else [])
      ++ (if hasKey state "cyclePhase" then
        [ createSensor svc.config
            { applianceId := applianceId, originalId := some originalId
              deviceInfo := deviceInfo, name := "Cycle Phase"
              stateTopic := stateTopic
              valueTemplate := "\x7b\x7b value_json.cyclePhase \x7d\x7d"
              icon := some "mdi:washing-machine", component := "sensor" } ]
        else [])
      ++ (if hasNestedKey state "userSelections" "humidityTarget" then
        [ createSensor svc.config
            { applianceId := applianceId, originalId := some originalId
              deviceInfo := deviceInfo, name := "Humidity Target"
              stateTopic := stateTopic
              valueTemplate := "\x7b\x7b value_json.userSelections.humidityTarget \x7d\x7d"
              icon := some "mdi:water-percent", component := "sensor" } ]
        else [])
      else [])
  ++ (if dt == "FRIDGE" then
      (if hasKey state "fridgeTemperature" then
        [ createSensor svc.config
            { applianceId := applianceId
              deviceInfo := deviceInfo, name := "Fridge Temperature"
              uniqueId := some (applianceId ++ "_fridge_temperature")
              deviceClass := some "temperature", stateTopic := stateTopic
              valueTemplate := "\x7b\x7b value_json.fridgeTemperature \x7d\x7d"
              unitOfMeasurement := some "°C", component := "sensor" } ]
        else [])
      ++ (if hasKey state "freezerTemperature" then
        [ createSensor svc.config
            { applianceId := applianceId
              deviceInfo := deviceInfo, name := "Freezer Temperature"
              uniqueId := some (applianceId ++ "_freezer_temperature")
              deviceClass := some "temperature", stateTopic := stateTopic
              valueTemplate := "\x7b\x7b value_json.freezerTemperature \x7d\x7d"
              unitOfMeasurement := some "°C", component := "sensor" } ]
        else [])
      else [])
  ++ genericDocs svc.config applianceId originalId deviceInfo stateTopic state

/-- The `device` info object built at the top of `registerDevice`
(lines 134-144), with JS `||` / `?:` truthiness on the string fields and the
optional-chained software-version fallback. -/
def mkDeviceInfo (cfg : HAConfig) (appliance : HARecord) : DeviceInfo :=
  { identifiers := [appliance.applianceId]
    name := if appliance.name != "" then appliance.name
            else "Electrolux " ++ appliance.info.deviceType
    manufacturer := "Electrolux"
    model :=
      (if appliance.info.modelName != "" then appliance.info.modelName else "Unknown")
      ++ (if appliance.info.variant != "" then " (" ++ appliance.info.variant ++ ")" else "")
    sw_version :=
      jvalOr (appliance.state.lookup "applianceMainBoardSwVersion")
        (jvalOr (appliance.state.lookup "applianceUiSwVersion") (JVal.str "1.0.0"))
    via_device := cfg.nodeId }

/-- `HomeAssistantService.registerDevice` (lines 126-157): no-op when the
sanitised id is already in the ledger; otherwise derives and publishes the
discovery documents and records the id.  Publish failures are swallowed
inside `createSensor`, so the derivation itself never throws here. -/
def registerDevice (svc : HAService) (appliance : HARecord) :
    HAService × List DiscoveryDoc :=
  let originalId := appliance.applianceId
  let applianceId := sanitizeId originalId false
  if svc.deviceRegistrations.contains applianceId then (svc, [])
  else
    let deviceInfo := mkDeviceInfo svc.config appliance
    let docs := createSensors svc applianceId originalId deviceInfo appliance
    ({ svc with deviceRegistrations := svc.deviceRegistrations ++ [applianceId] }, docs)

/-- JS object spread `{ ...base, ...rest }` for string-keyed objects: keys
of `base` keep their positions with values overridden by `rest` where
present, then keys of `rest` not in `base` follow in their own order. -/
def spreadMerge (base rest : List (String × JVal)) : List (String × JVal) :=
  base.map (fun kv => (kv.1, (rest.lookup kv.1).getD kv.2))
    ++ rest.filter (fun kv => (base.lookup kv.1).isNone)

/-- `HomeAssistantService.publishState` (lines 474-494): the retained state
payload `{timestamp, connected, ...appliance.state}` for topic
`electrolux2mqtt/{sanitizedId}/state`, where `connected` is
`appliance.info.connected !== undefined ? appliance.info.connected : true`. -/
def publishState (_svc : HAService) (now : String) (appliance : HARecord) :
    String × List (String × JVal) :=
  let applianceId := sanitizeId appliance.applianceId false
  ("electrolux2mqtt/" ++ applianceId ++ "/state",
    spreadMerge
      [("timestamp", JVal.str now),
       ("connected", JVal.bool (appliance.info.connected.getD true))]
      appliance.state)

/-- A service with the default configuration and an empty ledger. -/
def demoHAService : HAService :=
  { config := { discoveryPfx := "homeassistant", nodeId := "electrolux2mqtt"
                statusTopic := "electrolux2mqtt/status", enabled := true }
    deviceRegistrations := [] }

/-- The same configuration with a different, nonempty ledger. -/
def demoHAService2 : HAService :=
  { config := { discoveryPfx := "homeassistant", nodeId := "electrolux2mqtt"
                statusTopic := "electrolux2mqtt/status", enabled := true }
    deviceRegistrations := ["other_device"] }

/-- A concrete washer record. -/
def demoRecord : HARecord :=
  { applianceId := "washer-1"
    name := "Washer"
    info := { modelName := "EW6F", variant := "", serialNumber := "SN1"
              deviceType := "WASHER", connected := some true }
    state := [("temperature", JVal.num 40), ("ecoMode", JVal.bool true)] }

/-- A refrigerator record whose state holds the scalar key `program`, which
no always-present sensor and no FRIDGE category rule covers. -/
def fridgeProgramRecord : HARecord :=
  { applianceId := "fridge-1"
    name := "Fridge"
    info := { modelName := "LNT", variant := "", serialNumber := "SN2"
              deviceType := "FRIDGE", connected := some true }
    state := [("program", JVal.str "eco")] }

/-- A record with undefined `info.connected` and no `connected` state key. -/
def demoRecordNoConn : HARecord :=
  { applianceId := "dryer-1"
    name := "Dryer"
    info := { modelName := "TD", variant := "", serialNumber := "SN3"
              deviceType := "DRYER", connected := none }
    state := [("doorState", JVal.str "CLOSED")] }

end Electrolux2Mqtt


namespace Electrolux2Mqtt

/-- C1: the source `authenticate` has no single-flight guard: with two
concurrent callers on an expired session, both pass the validity check before
either refresh completes, so two renewal HTTP requests are issued (not one),
and the two callers observe different sessions ("a1" vs "a2"). -/
theorem authenticate_concurrent_double_renewal :
    (execEvents twoCallerSchedule expiredInit).renewals = 2 ∧
    (execEvents twoCallerSchedule expiredInit).callers = [.doneOk, .doneOk] ∧
    (execEvents twoCallerSchedule expiredInit).tok.accessToken = some "a2" := by
  decide

/-- C5: `authenticate` attempts a renewal iff the access token is absent or
the expiry is within the 120000 ms safety margin of `now`; otherwise it
returns with the token state unchanged and the session valid strictly beyond
`now + 120000`. -/
theorem authenticate_margin (now : Int) (outcome : Except String AuthResp)
    (st : TokenState) :
    ((authenticate now outcome st).1 = true ↔
      (st.accessToken = none ∨ st.tokenExpiry - now ≤ 120000)) ∧
    ((authenticate now outcome st).1 = false →
      (authenticate now outcome st).2.state = st ∧ now + 120000 < st.tokenExpiry) := by
  by_cases h : st.accessToken.isSome ∧ now < st.tokenExpiry - 120000
  · have hd : authenticate now outcome st =
        (false, { result := .ok (), state := st, saved := [] }) := by
      unfold authenticate
      rw [if_pos h]
    rw [hd]
    obtain ⟨h1, h2⟩ := h
    constructor
    · constructor
      · intro hft
        simp at hft
      · rintro (hnone | hle)
        · rw [hnone] at h1
          exact absurd h1 (by decide)
        · exfalso
          omega
    · intro _
      exact ⟨rfl, by omega⟩
  · have hd : authenticate now outcome st =
        (true, refreshAccessToken now outcome st) := by
      unfold authenticate
      rw [if_neg h]
    rw [hd]
    constructor
    · constructor
      · intro _
        rcases hacc : st.accessToken with _ | a
        · exact Or.inl rfl
        · refine Or.inr ?_
          by_contra hlt
          push_neg at hlt
          exact h ⟨by rw [hacc]; rfl, by omega⟩
      · intro _
        rfl
    · intro hft
      simp at hft

/-- Witness for `authenticate_margin` at a concrete input: with a token
valid well beyond the margin, no renewal happens and the state is kept. -/
theorem authenticate_margin_witness :
    (authenticate 0 (.error "e")
        { accessToken := some "tok", refreshToken := some "r", tokenExpiry := 1000000 }).2.state
      = { accessToken := some "tok", refreshToken := some "r", tokenExpiry := 1000000 } := by
  have h := authenticate_margin 0 (.error "e")
    { accessToken := some "tok", refreshToken := some "r", tokenExpiry := 1000000 }
  exact (h.2 (by decide)).1

/-- C6 counterexample: a failing `refreshAccessToken` call (no refresh token
stored) that does NOT clear the in-memory session — the access token and
expiry survive, refuting "on any failure it clears the in-memory session
entirely".  The guard `if (!this.refreshToken) throw ...` sits before the
try/catch that clears. -/
theorem refresh_failure_leaves_access_token :
    (refreshAccessToken 0 (.ok { accessToken := "na", refreshToken := "nr", expiresIn := 3600 })
        { accessToken := some "tok", refreshToken := none, tokenExpiry := 999 }).result
      = .error "No refresh token available" ∧
    (refreshAccessToken 0 (.ok { accessToken := "na", refreshToken := "nr", expiresIn := 3600 })
        { accessToken := some "tok", refreshToken := none, tokenExpiry := 999 }).state
      = { accessToken := some "tok", refreshToken := none, tokenExpiry := 999 } := by
  exact ⟨rfl, rfl⟩

/-- C6 (amended): when no refresh token is stored, `refreshAccessToken`
throws leaving the session untouched; with a refresh token present, a
successful exchange replaces all three token fields and persists exactly the
new state, while a failed exchange clears the session entirely, persists
nothing, and propagates the error. -/
theorem refreshAccessToken_spec (now : Int) (outcome : Except String AuthResp)
    (st : TokenState) :
    (st.refreshToken = none →
      (refreshAccessToken now outcome st).result = .error "No refresh token available" ∧
      (refreshAccessToken now outcome st).state = st ∧
      (refreshAccessToken now outcome st).saved = []) ∧
    (st.refreshToken.isSome = true →
      (∀ auth, outcome = .ok auth →
        (refreshAccessToken now outcome st).state =
          { accessToken := some auth.accessToken
            refreshToken := some auth.refreshToken
            tokenExpiry := now + auth.expiresIn * 1000 } ∧
        (refreshAccessToken now outcome st).saved =
          [(refreshAccessToken now outcome st).state] ∧
        (refreshAccessToken now outcome st).result = .ok ()) ∧
      (∀ e, outcome = .error e →
        (refreshAccessToken now outcome st).state =
          { accessToken := none, refreshToken := none, tokenExpiry := 0 } ∧
        (refreshAccessToken now outcome st).saved = [] ∧
        (refreshAccessToken now outcome st).result = .error e)) := by
  rcases hrt : st.refreshToken with _ | rt
  · refine ⟨fun _ => ?_, fun hs => ?_⟩
    · simp [refreshAccessToken, hrt]
    · simp at hs
  · refine ⟨fun hn => ?_, fun _ => ⟨?_, ?_⟩⟩
    · simp at hn
    · rintro auth rfl
      simp [refreshAccessToken, hrt]
    · rintro e rfl
      simp [refreshAccessToken, hrt]


/-- Witness for `refreshAccessToken_spec`: a concrete successful exchange
replaces the session with the newly issued pair. -/
theorem refreshAccessToken_spec_witness :
    (refreshAccessToken 5 (.ok { accessToken := "a", refreshToken := "r", expiresIn := 3600 })
        { accessToken := some "o", refreshToken := some "r0", tokenExpiry := 7 }).state
      = { accessToken := some "a", refreshToken := some "r", tokenExpiry := 5 + 3600 * 1000 } := by
  have h := (refreshAccessToken_spec 5
    (.ok { accessToken := "a", refreshToken := "r", expiresIn := 3600 })
    { accessToken := some "o", refreshToken := some "r0", tokenExpiry := 7 }).2 (by decide)
  exact (h.1 { accessToken := "a", refreshToken := "r", expiresIn := 3600 } rfl).1

/-- C2 counterexample: with an empty inventory, `fetchData` returns a
one-element placeholder list `[{timestamp, message: 'No appliances found'}]`,
not the empty result set the claim requires. -/
theorem fetchData_empty_placeholder_counterexample :
    fetchData "t0" (.ok []) (fun _ => .error "x") (fun _ => .error "x")
      = .ok [.message "t0" "No appliances found"] ∧
    fetchData "t0" (.ok []) (fun _ => .error "x") (fun _ => .error "x")
      ≠ .ok ([] : List ApiResp) := by
  refine ⟨rfl, ?_⟩
  intro h
  simp [fetchData] at h

/-- C2 (amended): if the inventory list is empty, `fetchData` succeeds (no
error) with exactly one placeholder record `{timestamp, message: 'No
appliances found'}` — not an empty list. -/
theorem fetchData_empty_inventory (now : String)
    (infoFetch : String → Except String ApplianceInfoSrc)
    (stateFetch : String → Except String ApplianceStateSrc) :
    fetchData now (.ok []) infoFetch stateFetch
      = .ok [.message now "No appliances found"] := rfl

/-- C3: per-device isolation of `fetchData`.  When the inventory listing
succeeds (nonempty), `fetchData` returns `.ok` (no exception escapes a
per-device failure) with one entry per appliance; any appliance whose info
or state fetch throws yields a degraded record carrying its id, name, the
error message and `connected: false`, and every appliance whose fetches
succeed yields the normalised success record. -/
theorem fetchData_isolation (now : String) (appliances : List Appliance)
    (infoFetch : String → Except String ApplianceInfoSrc)
    (stateFetch : String → Except String ApplianceStateSrc)
    (hne : appliances ≠ []) :
    ∃ rs : List ApiResp,
      fetchData now (.ok appliances) infoFetch stateFetch = .ok rs ∧
      rs.length = appliances.length ∧
      ∀ (i : Nat) (hi : i < appliances.length) (hi2 : i < rs.length),
        (∀ e, infoFetch appliances[i].applianceId = .error e →
          rs[i] = .deviceError now appliances[i].applianceId
            appliances[i].applianceName
            ("Failed to fetch appliance data: " ++ e) false) ∧
        (∀ info e, infoFetch appliances[i].applianceId = .ok info →
          stateFetch appliances[i].applianceId = .error e →
          rs[i] = .deviceError now appliances[i].applianceId
            appliances[i].applianceName
            ("Failed to fetch appliance data: " ++ e) false) ∧
        (∀ info stv, infoFetch appliances[i].applianceId = .ok info →
          stateFetch appliances[i].applianceId = .ok stv →
          rs[i] = processApplianceData now appliances[i] info stv) := by
  refine ⟨appliances.map (fetchOne now infoFetch stateFetch), ?_, by simp, ?_⟩
  · simp only [fetchData]
    rw [if_neg (by simpa using hne)]
  · intro i hi hi2
    have hget : (appliances.map (fetchOne now infoFetch stateFetch))[i] =
        fetchOne now infoFetch stateFetch appliances[i] :=
      List.getElem_map _
    refine ⟨?_, ?_, ?_⟩
    · intro e he
      rw [hget]
      simp [fetchOne, he]
    · intro info e hinfo hstate
      rw [hget]
      simp [fetchOne, hinfo, hstate]
    · intro info stv hinfo hstate
      rw [hget]
      simp [fetchOne, hinfo, hstate]

/-- Witness for `fetchData_isolation`: the spec §8 scenario — three devices,
the second one's info fetch throws. -/
theorem fetchData_isolation_witness :
    ∃ rs : List ApiResp,
      fetchData "t" (.ok demoAppliances) demoInfoFetch demoStateFetch = .ok rs ∧
      rs.length = demoAppliances.length ∧
      ∀ (i : Nat) (hi : i < demoAppliances.length) (hi2 : i < rs.length),
        (∀ e, demoInfoFetch demoAppliances[i].applianceId = .error e →
          rs[i] = .deviceError "t" demoAppliances[i].applianceId
            demoAppliances[i].applianceName
            ("Failed to fetch appliance data: " ++ e) false) ∧
        (∀ info e, demoInfoFetch demoAppliances[i].applianceId = .ok info →
          demoStateFetch demoAppliances[i].applianceId = .error e →
          rs[i] = .deviceError "t" demoAppliances[i].applianceId
            demoAppliances[i].applianceName
            ("Failed to fetch appliance data: " ++ e) false) ∧
        (∀ info stv, demoInfoFetch demoAppliances[i].applianceId = .ok info →
          demoStateFetch demoAppliances[i].applianceId = .ok stv →
          rs[i] = processApplianceData "t" demoAppliances[i] info stv) :=
  fetchData_isolation "t" demoAppliances demoInfoFetch demoStateFetch (by decide)

/-! ### Lemmas about the sanitisation pipeline -/

theorem collapseAux_mem (p : Char → Bool) (r : Char) :
    ∀ (l : List Char) (b : Bool) (c : Char), c ∈ collapseAux p r b l → c = r ∨ c ∈ l := by
  intro l
  induction l with
  | nil =>
    intro b c hc
    simp [collapseAux] at hc
  | cons x xs ih =>
    intro b c hc
    cases hx : p x with
    | false =>
      simp only [collapseAux, hx] at hc
      rcases List.mem_cons.mp hc with rfl | hmem
      · exact Or.inr (List.mem_cons_self _ _)
      · rcases ih false c hmem with h | h
        · exact Or.inl h
        · exact Or.inr (List.mem_cons_of_mem _ h)
    | true =>
      cases b with
      | true =>
        simp only [collapseAux, hx] at hc
        rcases ih true c hc with h | h
        · exact Or.inl h
        · exact Or.inr (List.mem_cons_of_mem _ h)
      | false =>
        simp only [collapseAux, hx] at hc
        rcases List.mem_cons.mp hc with rfl | hmem
        · exact Or.inl rfl
        · rcases ih true c hmem with h | h
          · exact Or.inl h
          · exact Or.inr (List.mem_cons_of_mem _ h)

theorem collapseAux_true_head (p : Char → Bool) (r : Char) :
    ∀ (l : List Char) (c : Char) (cs : List Char),
      collapseAux p r true l = c :: cs → p c = false := by
  intro l
  induction l with
  | nil =>
    intro c cs h
    simp [collapseAux] at h
  | cons x xs ih =>
    intro c cs h
    cases hx : p x with
    | false =>
      simp only [collapseAux, hx] at h
      cases h
      exact hx
    | true =>
      simp only [collapseAux, hx] at h
      exact ih c cs h

theorem collapseAux_noTwoAdjacent (p : Char → Bool) (r : Char) :
    ∀ (l : List Char) (b : Bool), noTwoAdjacent p (collapseAux p r b l) = true := by
  intro l
  induction l with
  | nil =>
    intro b
    simp [collapseAux, noTwoAdjacent]
  | cons x xs ih =>
    intro b
    cases hx : p x with
    | false =>
      simp only [collapseAux, hx]
      cases hrest : collapseAux p r false xs with
      | nil => simp [noTwoAdjacent]
      | cons y ys =>
        have hrec := ih false
        rw [hrest] at hrec
        rw [noTwoAdjacent]
        simp [hx, hrec]
    | true =>
      cases b with
      | true =>
        simp only [collapseAux, hx]
        exact ih true
      | false =>
        simp only [collapseAux, hx]
        cases hrest : collapseAux p r true xs with
        | nil => simp [noTwoAdjacent]
        | cons y ys =>
          have hy : p y = false := collapseAux_true_head p r xs y ys hrest
          have hrec := ih true
          rw [hrest] at hrec
          rw [noTwoAdjacent]
          simp [hy, hrec]

theorem collapseRuns_mem (p : Char → Bool) (r : Char) (l : List Char) (c : Char)
    (hc : c ∈ collapseRuns p r l) : c = r ∨ c ∈ l :=
  collapseAux_mem p r l false c hc

theorem collapseRuns_head (p : Char → Bool) (r : Char) (x : Char) (xs : List Char) :
    (collapseRuns p r (x :: xs)).head? = some (if p x = true then r else x) := by
  cases hx : p x with
  | false => simp [collapseRuns, collapseAux, hx]
  | true => simp [collapseRuns, collapseAux, hx]

theorem expandChar_mem (x : Char) (w : List Char) :
    ∀ (l : List Char) (c : Char), c ∈ expandChar x w l → c ∈ w ∨ c ∈ l := by
  intro l
  induction l with
  | nil =>
    intro c hc
    simp [expandChar] at hc
  | cons y ys ih =>
    intro c hc
    rw [expandChar] at hc
    rcases List.mem_append.mp hc with hin | hrest
    · by_cases hy : (y == x) = true
      · rw [if_pos hy] at hin
        exact Or.inl hin
      · rw [if_neg hy] at hin
        rcases List.mem_singleton.mp hin with rfl
        exact Or.inr (List.mem_cons_self _ _)
    · rcases ih c hrest with h | h
      · exact Or.inl h
      · exact Or.inr (List.mem_cons_of_mem _ h)

theorem prefixGuard_mem (l : List Char) (c : Char) (hc : c ∈ prefixGuard l) :
    c = 'a' ∨ c ∈ l := by
  cases l with
  | nil => simp [prefixGuard] at hc
  | cons x xs =>
    rw [prefixGuard] at hc
    by_cases hx : (x.isDigit || x == '-') = true
    · rw [if_pos hx] at hc
      rcases List.mem_cons.mp hc with rfl | hc2
      · exact Or.inl rfl
      · exact Or.inr hc2
    · rw [if_neg hx] at hc
      exact Or.inr hc

theorem prefixGuard_head (l : List Char) (c : Char) (cs : List Char)
    (h : prefixGuard l = c :: cs) : (c.isDigit || c == '-') = false := by
  cases l with
  | nil => simp [prefixGuard] at h
  | cons x xs =>
    rw [prefixGuard] at h
    by_cases hx : (x.isDigit || x == '-') = true
    · rw [if_pos hx] at h
      cases h
      decide
    · rw [if_neg hx] at h
      cases h
      simpa using hx

theorem collapseRuns_cons (p : Char → Bool) (r : Char) (c : Char) (cs : List Char) :
    ∃ t, collapseRuns p r (c :: cs) = (if p c = true then r else c) :: t := by
  cases hc : p c with
  | false => exact ⟨collapseAux p r false cs, by simp [collapseRuns, collapseAux, hc]⟩
  | true => exact ⟨collapseAux p r true cs, by simp [collapseRuns, collapseAux, hc]⟩

theorem sanitizeCore_allowed (allowed : Char → Bool) (hu : allowed '_' = true)
    (ha : allowed 'a' = true) (l : List Char) (hl : ∀ c ∈ l, allowed c = true) :
    ∀ c ∈ collapseRuns (fun d => d == '_') '_' (prefixGuard l), allowed c = true := by
  intro c hc
  rcases collapseRuns_mem _ _ _ _ hc with rfl | hmem
  · exact hu
  · rcases prefixGuard_mem _ _ hmem with rfl | hmem2
    · exact ha
    · exact hl c hmem2

theorem sanitizeCore_startsBad (l : List Char) :
    startsBad (String.mk (collapseRuns (fun d => d == '_') '_' (prefixGuard l))) = false := by
  cases hpg : prefixGuard l with
  | nil => rfl
  | cons c cs =>
    have hc : (c.isDigit || c == '-') = false := prefixGuard_head l c cs hpg
    obtain ⟨t, ht⟩ := collapseRuns_cons (fun d => d == '_') '_' c cs
    rw [ht]
    cases hcc : (c == '_') with
    | true => simp [startsBad]
    | false => simpa [startsBad, hcc] using hc

/-- C4 counterexample: both sanitiser forms collapse only runs of
underscores; the input `"a--b"` passes through unchanged, so the output
contains two adjacent separator characters (dashes), refuting clause (c) of
the claim that no two consecutive separator characters remain. -/
theorem sanitizeId_consecutive_dashes_counterexample :
    sanitizeId "a--b" false = "a--b" ∧
    sanitizeId "a--b" true = "a--b" ∧
    noTwoAdjacent isSeparator (sanitizeId "a--b" false).data = false := by
  refine ⟨by decide, by decide, by decide⟩

/-- C4 (amended): both sanitiser forms are total and, for every input:
(a) the strict output stays in `[a-zA-Z0-9_-]` and the loose output in
`[a-zA-Z0-9_.-]`; (b) neither output begins with a digit or a dash (the
filler `a` is prefixed when it would); (c) no two consecutive UNDERSCORES
remain — only underscore runs collapse, while consecutive dashes or mixed
separator pairs may survive; (d) the strict form contains no bus wildcard
`+`/`#`, which are replaced by the words `plus`/`hash` rather than removed
(concrete instances included). -/
theorem sanitizeId_props (id : String) :
    (∀ c ∈ (sanitizeId id false).data, isAllowedStrict c = true) ∧
    (∀ c ∈ (sanitizeId id true).data, isAllowedLoose c = true) ∧
    startsBad (sanitizeId id false) = false ∧
    startsBad (sanitizeId id true) = false ∧
    noTwoAdjacent (fun d => d == '_') (sanitizeId id false).data = true ∧
    noTwoAdjacent (fun d => d == '_') (sanitizeId id true).data = true ∧
    (∀ c ∈ (sanitizeId id false).data, c ≠ '+' ∧ c ≠ '#') ∧
    sanitizeId "a+b" false = "aplusb" ∧
    sanitizeId "kitchen fridge #1" false = "kitchen_fridge_hash1" := by
  by_cases hid : id = ""
  · subst hid
    exact ⟨by decide, by decide, by decide, by decide, by decide, by decide,
      by decide, by decide, by decide⟩
  · have e1 : sanitizeId id false = String.mk (collapseRuns (fun d => d == '_') '_'
        (prefixGuard (List.filter isAllowedStrict
          (List.filter (fun c => !(c == '&' || c == '?' || c == '='))
            (expandChar '#' ['h', 'a', 's', 'h']
              (expandChar '+' ['p', 'l', 'u', 's']
                (collapseRuns
                  (fun c => isJsSpace c || c == ',' || c == ':' || c == ';' || c == '/' || c == '\\')
                  '_' id.data))))))) := by
      simp [sanitizeId, hid]
    have e2 : sanitizeId id true = String.mk (collapseRuns (fun d => d == '_') '_'
        (prefixGuard (List.filter isAllowedLoose
          (collapseRuns (fun c => c == '/' || c == ':' || c == '?' || c == '&' || c == '=') '-'
            (collapseRuns (fun c => isJsSpace c || c == ',' || c == ';' || c == '\\') '_'
              id.data))))) := by
      simp [sanitizeId, hid]
    have hstrict : ∀ c ∈ (sanitizeId id false).data, isAllowedStrict c = true := by
      rw [e1]
      exact sanitizeCore_allowed isAllowedStrict (by decide) (by decide) _
        (fun d hd => (List.mem_filter.mp hd).2)
    refine ⟨hstrict, ?_, ?_, ?_, ?_, ?_, ?_, by decide, by decide⟩
    · rw [e2]
      exact sanitizeCore_allowed isAllowedLoose (by decide) (by decide) _
        (fun d hd => (List.mem_filter.mp hd).2)
    · rw [e1]
      exact sanitizeCore_startsBad _
    · rw [e2]
      exact sanitizeCore_startsBad _
    · rw [e1]
      exact collapseAux_noTwoAdjacent _ '_' _ false
    · rw [e2]
      exact collapseAux_noTwoAdjacent _ '_' _ false
    · intro c hc
      have hall := hstrict c hc
      constructor
      · rintro rfl
        exact absurd hall (by decide)
      · rintro rfl
        exact absurd hall (by decide)

/-- C7: device registration is idempotent.  With the sanitised id not yet
in the ledger, the first `registerDevice` call publishes exactly the derived
discovery-document set and appends the id to the ledger; a second call with
the same record publishes nothing and leaves the service state unchanged,
so each document is published exactly once. -/
theorem registerDevice_idempotent (svc : HAService) (rec : HARecord)
    (h : svc.deviceRegistrations.contains (sanitizeId rec.applianceId false) = false) :
    (registerDevice svc rec).2 =
      createSensors svc (sanitizeId rec.applianceId false) rec.applianceId
        (mkDeviceInfo svc.config rec) rec ∧
    (registerDevice svc rec).1.deviceRegistrations =
      svc.deviceRegistrations ++ [sanitizeId rec.applianceId false] ∧
    (registerDevice (registerDevice svc rec).1 rec).2 = [] ∧
    (registerDevice (registerDevice svc rec).1 rec).1 = (registerDevice svc rec).1 := by
  have hm : sanitizeId rec.applianceId false ∉ svc.deviceRegistrations := by
    simpa using h
  refine ⟨?_, ?_, ?_, ?_⟩ <;> simp [registerDevice, hm]

/-- Witness for `registerDevice_idempotent` on a concrete washer record and
an empty ledger. -/
theorem registerDevice_idempotent_witness :
    (registerDevice demoHAService demoRecord).2 =
      createSensors demoHAService (sanitizeId demoRecord.applianceId false)
        demoRecord.applianceId (mkDeviceInfo demoHAService.config demoRecord) demoRecord ∧
    (registerDevice demoHAService demoRecord).1.deviceRegistrations =
      demoHAService.deviceRegistrations ++ [sanitizeId demoRecord.applianceId false] ∧
    (registerDevice (registerDevice demoHAService demoRecord).1 demoRecord).2 = [] ∧
    (registerDevice (registerDevice demoHAService demoRecord).1 demoRecord).1 =
      (registerDevice demoHAService demoRecord).1 :=
  registerDevice_idempotent demoHAService demoRecord (by decide)

/-- C8: discovery-document derivation is deterministic and independent of
prior registrations: two service states with equal configuration but
arbitrary, different registration ledgers derive identical document lists
(in the same order) for the same appliance input; being a pure function of
its arguments, re-running it on unchanged input trivially reproduces the
same list. -/
theorem createSensors_deterministic (s1 s2 : HAService) (hcfg : s1.config = s2.config)
    (applianceId originalId : String) (deviceInfo : DeviceInfo) (appliance : HARecord) :
    createSensors s1 applianceId originalId deviceInfo appliance =
      createSensors s2 applianceId originalId deviceInfo appliance := by
  cases s1
  cases s2
  cases hcfg
  rfl

/-- Witness for `createSensors_deterministic`: same config, empty ledger
versus nonempty ledger. -/
theorem createSensors_deterministic_witness :
    createSensors demoHAService "washer_1" "washer-1"
        (mkDeviceInfo demoHAService.config demoRecord) demoRecord =
      createSensors demoHAService2 "washer_1" "washer-1"
        (mkDeviceInfo demoHAService.config demoRecord) demoRecord :=
  createSensors_deterministic demoHAService demoHAService2 rfl "washer_1" "washer-1"
    (mkDeviceInfo demoHAService.config demoRecord) demoRecord

/-- C9 counterexample: on a FRIDGE whose state is `{program: "eco"}`, the
key `program` is scalar and covered by no always-present sensor and no
FRIDGE category rule, yet no generic sensor is synthesised: the derivation
yields only the two always-present sensors, because the generic loop skips a
fixed, category-independent key list that contains `program`. -/
theorem createSensors_skiplist_counterexample :
    ((createSensors demoHAService "fridge1" "fridge-1"
        (mkDeviceInfo demoHAService.config fridgeProgramRecord) fridgeProgramRecord).map
      DiscoveryDoc.name) = ["Connection", "Device Status"] ∧
    ((createSensors demoHAService "fridge1" "fridge-1"
        (mkDeviceInfo demoHAService.config fridgeProgramRecord) fridgeProgramRecord).all
      (fun d => d.value_template != "\x7b\x7b value_json.program \x7d\x7d")) = true := by
  exact ⟨rfl, rfl⟩

theorem genericDocs_mem (cfg : HAConfig) (applianceId originalId : String)
    (deviceInfo : DeviceInfo) (stateTopic : String) :
    ∀ (st : List (String × JVal)) (key : String) (value : JVal),
      (key, value) ∈ st →
      genericSkipKeys.contains key = false →
      value.isObjType = false →
      createSensor cfg
        { applianceId := applianceId, originalId := some originalId
          deviceInfo := deviceInfo, name := formatPropertyName key
          stateTopic := stateTopic
          valueTemplate := "\x7b\x7b value_json." ++ key ++ " \x7d\x7d"
          component := if value.isBool then "binary_sensor" else "sensor"
          payloadOn := if value.isBool then some "true" else none
          payloadOff := if value.isBool then some "false" else none }
        ∈ genericDocs cfg applianceId originalId deviceInfo stateTopic st := by
  intro st
  induction st with
  | nil =>
    intro key value hmem _ _
    simp at hmem
  | cons kv rest ih =>
    intro key value hmem hskip hobj
    rcases List.mem_cons.mp hmem with heq | hmem2
    · obtain ⟨k, v⟩ := kv
      obtain ⟨rfl, rfl⟩ := Prod.mk.injEq key value k v ▸ heq
      simp [genericDocs, hskip, hobj]
      exact Or.inl (by simpa using hskip)
    · obtain ⟨k, v⟩ := kv
      exact List.mem_append_right _ (ih key value hmem2 hskip hobj)

/-- C9 (amended): for every state entry whose key is outside the hardcoded
exclusion list (`connected`, `temperature`, `humidity`, `program`, `status`,
`remainingTime`, `fridgeTemperature`, `freezerTemperature`, `doorState`,
`timeToEnd`, `cyclePhase`, `applianceState`, `userSelections`,
`device_status` — applied regardless of device category) and whose value is
not object-typed, `createSensors` emits a generic sensor: a binary sensor
with true/false payload mapping when the value is a boolean, otherwise a
plain sensor exposing the raw value. -/
theorem createSensors_generic_sensor (svc : HAService) (applianceId originalId : String)
    (deviceInfo : DeviceInfo) (appliance : HARecord) (key : String) (value : JVal)
    (hmem : (key, value) ∈ appliance.state)
    (hskip : genericSkipKeys.contains key = false)
    (hobj : value.isObjType = false) :
    createSensor svc.config
      { applianceId := applianceId, originalId := some originalId
        deviceInfo := deviceInfo, name := formatPropertyName key
        stateTopic := "electrolux2mqtt/" ++ applianceId ++ "/state"
        valueTemplate := "\x7b\x7b value_json." ++ key ++ " \x7d\x7d"
        component := if value.isBool then "binary_sensor" else "sensor"
        payloadOn := if value.isBool then some "true" else none
        payloadOff := if value.isBool then some "false" else none }
      ∈ createSensors svc applianceId originalId deviceInfo appliance := by
  have hgen := genericDocs_mem svc.config applianceId originalId deviceInfo
    ("electrolux2mqtt/" ++ applianceId ++ "/state") appliance.state key value hmem hskip hobj
  simp only [createSensors]
  simp [hgen]

/-- Witness for `createSensors_generic_sensor`: the boolean state key
`ecoMode` of the demo washer record yields a generic binary sensor. -/
theorem createSensors_generic_sensor_witness :
    createSensor demoHAService.config
      { applianceId := "washer_1", originalId := some "washer-1"
        deviceInfo := mkDeviceInfo demoHAService.config demoRecord
        name := formatPropertyName "ecoMode"
        stateTopic := "electrolux2mqtt/" ++ "washer_1" ++ "/state"
        valueTemplate := "\x7b\x7b value_json." ++ "ecoMode" ++ " \x7d\x7d"
        component := if (JVal.bool true).isBool then "binary_sensor" else "sensor"
        payloadOn := if (JVal.bool true).isBool then some "true" else none
        payloadOff := if (JVal.bool true).isBool then some "false" else none }
      ∈ createSensors demoHAService "washer_1" "washer-1"
          (mkDeviceInfo demoHAService.config demoRecord) demoRecord :=
  createSensors_generic_sensor demoHAService "washer_1" "washer-1"
    (mkDeviceInfo demoHAService.config demoRecord) demoRecord "ecoMode" (JVal.bool true)
    (List.mem_cons_of_mem _ (List.mem_cons_self _ _)) (by decide) rfl

/-- C10: the `publishState` payload is `{timestamp, connected, ...state}`:
its `connected` entry equals the state map's own `connected` value when that
key is present (the spread overrides the derived flag), and otherwise the
flag derived from `info.connected`, which defaults to `true` when
`info.connected` is undefined. -/
theorem publishState_connected (svc : HAService) (now : String) (rec : HARecord) :
    (publishState svc now rec).1 =
      "electrolux2mqtt/" ++ sanitizeId rec.applianceId false ++ "/state" ∧
    (publishState svc now rec).2.lookup "connected" =
      some ((rec.state.lookup "connected").getD (JVal.bool (rec.info.connected.getD true))) ∧
    (∀ v, rec.state.lookup "connected" = some v →
      (publishState svc now rec).2.lookup "connected" = some v) ∧
    (rec.state.lookup "connected" = none → rec.info.connected = none →
      (publishState svc now rec).2.lookup "connected" = some (JVal.bool true)) := by
  have hb1 : (("connected" : String) == "timestamp") = false := by decide
  have h1 : (publishState svc now rec).2.lookup "connected" =
      some ((rec.state.lookup "connected").getD (JVal.bool (rec.info.connected.getD true))) := by
    simp [publishState, spreadMerge, List.lookup, hb1]
  refine ⟨rfl, h1, ?_, ?_⟩
  · intro v hv
    rw [h1, hv]
    rfl
  · intro hnone hcon
    rw [h1, hnone, hcon]
    rfl

/-- Witness for `publishState_connected`: a record with undefined
`info.connected` and no `connected` state key publishes `connected: true`. -/
theorem publishState_connected_witness :
    (publishState demoHAService "ts" demoRecordNoConn).2.lookup "connected"
      = some (JVal.bool true) :=
  (publishState_connected demoHAService "ts" demoRecordNoConn).2.2.2 rfl rfl

end Electrolux2Mqtt
